import Mathlib

/-!
Verification development for the MoCap-Suit firmware (ESP32 node and receiver,
MicroPython).  The definitions below are shallow embeddings of the functions in
src/esp32/node/main.py and src/esp32/receiver/main.py; hardware and socket
effects are made explicit as oracle inputs and event traces.  Strings are
modelled as Lean strings (the firmware decodes UDP payloads as UTF-8 text);
string primitives of Python (split, strip, upper, int) are re-implemented by
structural recursion over the character list so that all definitions evaluate
inside the kernel.
-/

namespace MoCap

/-! ## Python string primitives, over `List Char` -/

/-- Model of Python `str.split(sep)` for a one-character separator `c`:
splits at every occurrence, keeping empty chunks, and returns `[[]]` on the
empty string (as Python returns `[""]`). -/
def splitOnChar (c : Char) : List Char → List (List Char)
  | [] => [[]]
  | x :: xs =>
      let r := splitOnChar c xs
      if x = c then [] :: r
      else
        match r with
        | h :: t => (x :: h) :: t
        | [] => [[x]]

/-- Model of Python `str.split(sep, 1)` for separator `:`: splits at the first
colon only, returning the head and, when a colon exists, the remainder. -/
def splitOnceColon : List Char → List Char × Option (List Char)
  | [] => ([], none)
  | x :: xs =>
      if x = ':' then ([], some xs)
      else
        let r := splitOnceColon xs
        (x :: r.1, r.2)

/-- Model of Python `str.strip()`: remove whitespace from both ends. -/
def pyStrip (l : List Char) : List Char :=
  ((l.dropWhile Char.isWhitespace).reverse.dropWhile Char.isWhitespace).reverse

/-- Decimal value of a digit list (used only on all-digit lists). -/
def digitsToNat (l : List Char) : Nat :=
  l.foldl (fun a c => a * 10 + (c.toNat - 48)) 0

/-- Model of Python `int(s)`: optional surrounding whitespace, optional sign,
then a nonempty run of decimal digits; anything else raises `ValueError`,
modelled as `none`.  (Python also accepts underscore separators; no firmware
input uses them, and they are not modelled.) -/
def pyParseInt (l : List Char) : Option Int :=
  let t := pyStrip l
  match t with
  | '-' :: ds =>
      if ds ≠ [] ∧ ds.all Char.isDigit then some (-(digitsToNat ds : Int)) else none
  | '+' :: ds =>
      if ds ≠ [] ∧ ds.all Char.isDigit then some (digitsToNat ds : Int) else none
  | ds =>
      if ds ≠ [] ∧ ds.all Char.isDigit then some (digitsToNat ds : Int) else none

/-! ## Receiver: UDP streaming consumer (src/esp32/receiver/main.py, UDPServer.run, lines 600-655)

One loop iteration of `UDPServer.run` after a datagram has been received is
embedded as a pure step function.  The statistics counters, garbage collection
and watchdog feeding of the loop do not touch the parsing or relaying outputs
and are omitted from the step.
-/

/-- Parse of lines 603-618 of receiver `UDPServer.run`: the frame must start
with `SEQ:`, contain at least one comma, and the text between the first colon
and the first comma must parse as an integer; any failure raises inside the
`try` block, modelled as `none`. -/
def parseSeq (frame : String) : Option Int :=
  let l := frame.toList
  if ("SEQ:".toList).isPrefixOf l then
    let parts := splitOnChar ',' l
    if parts.length < 2 then none
    else
      match (splitOnChar ':' (parts.headD [])).get? 1 with
      | some v => pyParseInt v
      | none => none
  else none

/-- Outcome of one frame-processing step of the receiver UDP consumer:
the stored last-seen sequence after the step, the packet-loss figure logged
(if any), and the exact line written to the host on stdout. -/
structure UdpStep where
  newLastSeq : Option Int
  lossReport : Option Int
  hostLine : String
  deriving DecidableEq

/-- Embedding of lines 600-655 of receiver `UDPServer.run` for one received
frame: on a successful parse the loss check of lines 620-626 runs, `last_seq`
becomes the parsed value (line 627) and the relayed text is the frame with
`QUAT_DATA: ` prepended (line 630); on a parse failure the frame is relayed
unmodified and `last_seq` is untouched (lines 633-635).  Either way the host
write prepends `DATA:` (lines 650-651). -/
def udpProcessFrame (lastSeq : Option Int) (frame : String) : UdpStep :=
  match parseSeq frame with
  | none => ⟨lastSeq, none, "DATA:" ++ frame⟩
  | some seq =>
      let loss : Option Int :=
        match lastSeq with
        | none => none
        | some p =>
            let expected := (p + 1) % 65536
            if seq ≠ expected then
              let lost := (seq - expected) % 65536
              if 0 < lost ∧ lost < 1000 then some lost else none
            else none
      ⟨some seq, loss, "DATA:" ++ ("QUAT_DATA: " ++ frame)⟩

/-- C1: for a frame carrying sequence number s arriving when the last seen
sequence was p, with gap g = (s - (p+1)) mod 65536, the UDP consumer reports a
loss of exactly g packets iff 0 < g < 1000 (anything else is treated as a
stream reset and not reported), and the stored last-seen sequence becomes s in
every case. -/
theorem udp_consumer_loss_report (p s : Int) (frame : String)
    (hp : parseSeq frame = some s) :
    ((udpProcessFrame (some p) frame).lossReport =
      if 0 < (s - (p + 1)) % 65536 ∧ (s - (p + 1)) % 65536 < 1000
      then some ((s - (p + 1)) % 65536) else none)
    ∧ (udpProcessFrame (some p) frame).newLastSeq = some s := by
  have hmod : (s - (p + 1) % 65536) % 65536 = (s - (p + 1)) % 65536 := by omega
  unfold udpProcessFrame
  rw [hp]
  refine ⟨?_, rfl⟩
  by_cases h : s = (p + 1) % 65536
  · have h1 : ((p + 1) % 65536 - (p + 1)) % 65536 = 0 := by omega
    simp [h, h1]
  · simp [h, hmod]

/-- Witness for udp_consumer_loss_report: frame `SEQ:45,x` after last seen 40
gives gap 4, which is reported as a 4-packet loss, and last seen becomes 45. -/
theorem udp_consumer_loss_report_witness :
    parseSeq "SEQ:45,x" = some 45 ∧
    (((udpProcessFrame (some 40) "SEQ:45,x").lossReport =
      if 0 < ((45 : Int) - (40 + 1)) % 65536 ∧ ((45 : Int) - (40 + 1)) % 65536 < 1000
      then some (((45 : Int) - (40 + 1)) % 65536) else none)
    ∧ (udpProcessFrame (some 40) "SEQ:45,x").newLastSeq = some 45) :=
  ⟨by decide, udp_consumer_loss_report 40 45 "SEQ:45,x" (by decide)⟩

/-- C2 counterexample: the spec scenario frame `SEQ:41,S0:[1.0,0.0,0.0,0.0]`
arriving when the last seen sequence is 40 is NOT relayed as the frame with
only a `DATA:` prefix: the receiver additionally inserts `QUAT_DATA: `
(line 630 of receiver main.py). -/
theorem udp_relay_not_unchanged :
    (udpProcessFrame (some 40) "SEQ:41,S0:[1.0,0.0,0.0,0.0]").hostLine ≠
      "DATA:" ++ "SEQ:41,S0:[1.0,0.0,0.0,0.0]" := by decide

/-- C2 amended: every well-formed stream frame is relayed to the host with
the text `DATA:QUAT_DATA: ` prepended (a `QUAT_DATA: ` tag is inserted
between the `DATA:` prefix and the frame); the frame text itself is otherwise
unchanged. -/
theorem udp_relay_quatdata_tag (lastSeq : Option Int) (frame : String) (s : Int)
    (hp : parseSeq frame = some s) :
    (udpProcessFrame lastSeq frame).hostLine = "DATA:QUAT_DATA: " ++ frame := by
  unfold udpProcessFrame
  rw [hp]
  show "DATA:" ++ ("QUAT_DATA: " ++ frame) = _
  rw [← String.append_assoc]
  congr 1

/-- Witness for udp_relay_quatdata_tag on the spec scenario frame. -/
theorem udp_relay_quatdata_tag_witness :
    parseSeq "SEQ:41,S0:[1.0,0.0,0.0,0.0]" = some 41 ∧
    (udpProcessFrame (some 40) "SEQ:41,S0:[1.0,0.0,0.0,0.0]").hostLine =
      "DATA:QUAT_DATA: " ++ "SEQ:41,S0:[1.0,0.0,0.0,0.0]" :=
  ⟨by decide, udp_relay_quatdata_tag (some 40) "SEQ:41,S0:[1.0,0.0,0.0,0.0]" 41 (by decide)⟩

/-- C9: a received frame that fails parsing is not dropped: it is written to
the host with the `DATA:` prefix in its original unmodified form, no loss is
reported, and the stored last-seen sequence is left unchanged. -/
theorem udp_malformed_frame_step (lastSeq : Option Int) (frame : String)
    (hp : parseSeq frame = none) :
    udpProcessFrame lastSeq frame = ⟨lastSeq, none, "DATA:" ++ frame⟩ := by
  unfold udpProcessFrame
  rw [hp]

/-- Witness for udp_malformed_frame_step: the frame `HELLO` (no `SEQ:` field)
is relayed untouched and the last-seen sequence stays 5. -/
theorem udp_malformed_frame_step_witness :
    parseSeq "HELLO" = none ∧
    udpProcessFrame (some 5) "HELLO" = ⟨some 5, none, "DATA:" ++ "HELLO"⟩ :=
  ⟨by decide, udp_malformed_frame_step (some 5) "HELLO" (by decide)⟩

/-! ## Node: I2C multiplexer channel select (src/esp32/node/main.py, select_sensor, lines 247-274)

The outcome of each physical `i2c.writeto` call is an oracle boolean
(`true` = the write succeeds, `false` = it raises `OSError`).  The payloads of
all attempted writes are recorded in order.
-/

/-- Result of a channel-select operation: overall success and the payload
bytes of the attempted multiplexer writes, in order. -/
structure SelectResult where
  ok : Bool
  writes : List Nat
  deriving DecidableEq

/-- Embedding of node `select_sensor`: write the single byte `1 <<< channel`
to the multiplexer (line 256-257); on failure and with `retry` set (the
default), retry the identical write once (lines 261-268) before reporting a
channel-select failure.  `ok1` and `ok2` are the oracle outcomes of the first
and second write attempt. -/
def select_sensor (ok1 ok2 : Bool) (channel : Nat) (retry : Bool := true) :
    SelectResult :=
  if ok1 then ⟨true, [1 <<< channel]⟩
  else if retry then
    if ok2 then ⟨true, [1 <<< channel, 1 <<< channel]⟩
    else ⟨false, [1 <<< channel, 1 <<< channel]⟩
  else ⟨false, [1 <<< channel]⟩

/-- C7: selecting the channel of sensor index c (the callers in
init_sensors line 337, check_sensor_status line 394 and the read loop
line 583 all pass channel = c / 2) writes single-byte payloads all equal to
`1 <<< (c / 2)` — a valid byte with exactly one bit set; a failed first write
is retried exactly once, and a channel-select failure is reported exactly
when both attempts fail. -/
theorem mux_select_payload (c : Nat) (hc : c < 8) (ok1 ok2 : Bool) :
    (∀ b ∈ (select_sensor ok1 ok2 (c / 2)).writes, b = 1 <<< (c / 2) ∧ b < 256)
    ∧ (ok1 = false → (select_sensor ok1 ok2 (c / 2)).writes.length = 2)
    ∧ (ok1 = true → (select_sensor ok1 ok2 (c / 2)).writes.length = 1)
    ∧ ((select_sensor ok1 ok2 (c / 2)).ok = false ↔ ok1 = false ∧ ok2 = false) := by
  have hb : 1 <<< (c / 2) < 256 := by interval_cases c <;> decide
  cases ok1 <;> cases ok2 <;>
    simp_all [select_sensor]

/-- Witness for mux_select_payload at sensor index 7 with a failing first
write: both attempted payloads equal 8 = 1 <<< 3 and the retry succeeds. -/
theorem mux_select_payload_witness :
    (7 : Nat) < 8 ∧
    (∀ b ∈ (select_sensor false true (7 / 2)).writes, b = 1 <<< (7 / 2) ∧ b < 256)
    ∧ (false = false → (select_sensor false true (7 / 2)).writes.length = 2)
    ∧ (false = true → (select_sensor false true (7 / 2)).writes.length = 1)
    ∧ ((select_sensor false true (7 / 2)).ok = false ↔ false = false ∧ true = false) :=
  ⟨by decide, mux_select_payload 7 (by decide) false true⟩

/-! ## Node: sensor read loop, one tick (src/esp32/node/main.py, sensor_reading_thread, lines 580-617)

The quaternion values are IEEE floats in the firmware; no arithmetic is ever
performed on them (they are only copied into the buffer or replaced by the
literal zero), so they are modelled by exact rationals.  The oracle gives the
outcome of each hardware interaction: the two write attempts of the channel
select at each slot, and the `sensor.quaternion()` call (`none` models a
raised exception, `some q` a returned tuple).  The in-place loop writes the
four buffer cells `4*idx .. 4*idx+3` of the 32-float buffer in every branch
and touches `sensors[idx]` only in slot idx's own iteration, so the tick is
rendered slot-wise: the buffer is returned as 8 quadruples in slot order. -/

/-- Hardware oracle for one read-loop tick: per slot, the outcomes of the two
multiplexer write attempts and of the quaternion read. -/
structure ReadOracle where
  sel1 : Nat → Bool
  sel2 : Nat → Bool
  quat : Nat → Option (List Rat)

/-- Observable I2C interaction of the read loop: a multiplexer channel-select
write with its payload byte, or a quaternion read from the sensor at a slot. -/
inductive I2CEvent
  | muxWrite (payload : Nat)
  | quatRead (idx : Nat)
  deriving DecidableEq

/-- Embedding of one slot iteration of the read loop (lines 582-617):
select channel idx / 2 (line 583-584, result ignored by the code), then, when
the slot is present, read the quaternion; a read exception zeroes the slot's
buffer cells and marks the slot absent (lines 603-610); a quaternion of length
other than 4 zeroes the cells but leaves the slot present (lines 596-602); an
absent slot is zeroed (lines 611-617).  Returns (new presence, the slot's four
buffer cells, the I2C events in order). -/
def slotStep (o : ReadOracle) (present : Bool) (idx : Nat) :
    Bool × List Rat × List I2CEvent :=
  let evs := ((select_sensor (o.sel1 idx) (o.sel2 idx) (idx / 2)).writes).map I2CEvent.muxWrite
  if present then
    match o.quat idx with
    | some q =>
        if q.length = 4 then (true, q, evs ++ [I2CEvent.quatRead idx])
        else (true, [0, 0, 0, 0], evs ++ [I2CEvent.quatRead idx])
    | none => (false, [0, 0, 0, 0], evs ++ [I2CEvent.quatRead idx])
  else (false, [0, 0, 0, 0], evs)

/-- Embedding of the per-tick `for idx in range(8)` loop of lines 580-617:
new presence list, the buffer as 8 quadruples in slot order, and the full
I2C event trace of the tick. -/
def readTick (o : ReadOracle) (sensors : List Bool) :
    List Bool × List (List Rat) × List I2CEvent :=
  let steps := (List.range 8).map fun i => slotStep o (sensors.getD i false) i
  (steps.map Prod.fst, steps.map (fun s => s.2.1), steps.flatMap (fun s => s.2.2))

/-- Oracle for the C4 counterexample: slot 0's read returns a length-3
quaternion, every other slot reads a well-formed one; all selects succeed. -/
def readOracleEx : ReadOracle :=
  ⟨fun _ => true, fun _ => true, fun i => if i = 0 then some [1, 2, 3] else some [1, 0, 0, 0]⟩

/-- C4 counterexample: when the read at slot 0 returns a quaternion of length
3 (not 4), the slot's buffer cells are zeroed but the slot is NOT marked
absent — it stays present (lines 596-602 do not clear `sensors[idx]`),
contradicting the claim that a wrong-length quaternion marks the slot absent. -/
theorem read_tick_badlen_keeps_slot :
    readOracleEx.quat 0 = some [1, 2, 3] ∧ ([1, 2, 3] : List Rat).length ≠ 4 ∧
    (readTick readOracleEx (List.replicate 8 true)).1[0]? = some true ∧
    (readTick readOracleEx (List.replicate 8 true)).2.1[0]? = some [0, 0, 0, 0] := by
  decide

/-- C4 amended: each tick visits all 8 slots, emitting the slot's
channel-select writes before its read; a slot whose read raises is zeroed and
marked absent; a slot whose read returns a quaternion of length other than 4
is zeroed but remains present; the loop never aborts (every slot of the
result is defined). -/
theorem read_tick_amended (o : ReadOracle) (sens : List Bool) (i : Nat) (hi : i < 8) :
    ((readTick o sens).1.length = 8)
    ∧ ((readTick o sens).2.1.length = 8)
    ∧ ((readTick o sens).2.2 =
        (List.range 8).flatMap fun j => (slotStep o (sens.getD j false) j).2.2)
    ∧ ((readTick o sens).1[i]? = some (slotStep o (sens.getD i false) i).1)
    ∧ ((readTick o sens).2.1[i]? = some (slotStep o (sens.getD i false) i).2.1)
    ∧ (∀ b, (slotStep o b i).2.2 =
        ((select_sensor (o.sel1 i) (o.sel2 i) (i / 2)).writes.map I2CEvent.muxWrite)
          ++ (if b then [I2CEvent.quatRead i] else []))
    ∧ (o.quat i = none →
        (slotStep o true i).1 = false ∧ (slotStep o true i).2.1 = [0, 0, 0, 0])
    ∧ (∀ q, o.quat i = some q → q.length ≠ 4 →
        (slotStep o true i).1 = true ∧ (slotStep o true i).2.1 = [0, 0, 0, 0]) := by
  refine ⟨?_, ?_, ?_, ?_, ?_, ?_, ?_, ?_⟩
  · simp [readTick]
  · simp [readTick]
  · simp [readTick, List.flatMap_map]
  · simp [readTick, List.getElem?_map, List.getElem?_range, hi]
  · simp [readTick, List.getElem?_map, List.getElem?_range, hi]
  · intro b
    cases b
    · simp [slotStep]
    · rcases h : o.quat i with _ | q
      · simp [slotStep, h]
      · by_cases hl : q.length = 4 <;> simp [slotStep, h, hl]
  · intro h
    simp [slotStep, h]
  · intro q h hl
    simp [slotStep, h, hl]

/-- Witness for read_tick_amended at slot 5 of a tick in which slot 5's read
raises: the conclusion holds with the raising-read hypothesis discharged at a
concrete oracle. -/
theorem read_tick_amended_witness :
    ((readTick ⟨fun _ => true, fun _ => true, fun _ => none⟩ (List.replicate 8 true)).1.length = 8)
    ∧ ((slotStep ⟨fun _ => true, fun _ => true, fun _ => none⟩ true 5).1 = false
        ∧ (slotStep ⟨fun _ => true, fun _ => true, fun _ => none⟩ true 5).2.1 = [0, 0, 0, 0])
    ∧ ((slotStep readOracleEx true 0).1 = true
        ∧ (slotStep readOracleEx true 0).2.1 = [0, 0, 0, 0]) :=
  ⟨(read_tick_amended ⟨fun _ => true, fun _ => true, fun _ => none⟩
      (List.replicate 8 true) 5 (by decide)).1,
   (read_tick_amended ⟨fun _ => true, fun _ => true, fun _ => none⟩
      (List.replicate 8 true) 5 (by decide)).2.2.2.2.2.2.1 rfl,
   (read_tick_amended readOracleEx (List.replicate 8 true) 0
      (by decide)).2.2.2.2.2.2.2 [1, 2, 3] rfl (by decide)⟩

/-! ## Node: TCP command server (src/esp32/node/main.py, handle_command_client and the handlers, lines 721-923)

The mutable module state touched by command handlers is collected in
`NodeState`.  Hardware- and thread-dependent outcomes (channel selects and
calibration reads inside check_sensor_status, sensor construction inside
init_sensors, thread spawning inside start_streaming) are oracle inputs.
Handlers that the firmware implements purely on this state (stop_streaming,
emergency_stop_command, set_debug_mode, ping_command, restart_node) are
embedded directly. -/

/-- Sensor name table of node main.py lines 48-57. -/
def SENSOR_NAMES : List String :=
  ["Right Lower Leg", "Right Upper Leg", "Left Lower Leg", "Left Upper Leg",
   "Left Lower Arm", "Left Upper Arm", "Right Lower Arm", "Right Upper Arm"]

/-- Node module state visible to the command server: `reading_enabled`
(line 14), the sensor presence array (line 18, `None` entries modelled as
`false`), `current_log_level` (line 66, a Python int), and the
`emergency_stop` flag (line 26). -/
structure NodeState where
  readingEnabled : Bool
  sensors : List Bool
  currentLogLevel : Int
  emergencyStop : Bool
  deriving DecidableEq

/-- Oracle for the hardware- and thread-dependent steps of the command
handlers: outcomes of the two select attempts and of `cal_status()` inside
check_sensor_status (the error carries the exception text), outcomes of the
select and of BNO055 construction (within its 5 retries) inside init_sensors,
and whether `_thread.start_new_thread` succeeds in start_streaming. -/
structure HwOracle where
  selC1 : Nat → Bool
  selC2 : Nat → Bool
  cal : Nat → Except String Nat
  selI1 : Nat → Bool
  selI2 : Nat → Bool
  constructOk : Nat → Bool
  threadStartOk : Bool
  threadErrMsg : String

/-- Return value of a command handler plus the state it leaves behind: the
Python handlers return `(response, success, should_restart)` tuples. -/
structure CmdOutcome where
  state : NodeState
  response : String
  success : Bool
  shouldRestart : Bool
  deriving DecidableEq

/-- Status line prefix used throughout check_sensor_status (lines 400-414). -/
def sensorStatusLine (idx : Nat) (tail : String) : String :=
  "Sensor " ++ toString idx ++ " (" ++ SENSOR_NAMES.getD idx "" ++ "): " ++ tail

/-- Embedding of node check_sensor_status (lines 385-416): for each slot,
select its channel idx / 2; a select failure reports and leaves the slot; a
`cal_status()` success reports the calibration; a `cal_status()` exception
reports the error and marks the slot absent; absent slots report
Not Initialized. -/
def check_sensor_status (hw : HwOracle) (sensors : List Bool) : List String × List Bool :=
  let rows := (List.range 8).map fun idx =>
    if sensors.getD idx false then
      if ¬ (select_sensor (hw.selC1 idx) (hw.selC2 idx) (idx / 2)).ok then
        (sensorStatusLine idx "Channel selection failed", true)
      else
        match hw.cal idx with
        | .ok c => (sensorStatusLine idx ("Connected, Calibration: " ++ toString c), true)
        | .error e => (sensorStatusLine idx ("Error checking status - " ++ e), false)
    else (sensorStatusLine idx "Not Initialized", false)
  (rows.map Prod.fst, rows.map Prod.snd)

/-- Embedding of node init_sensors (lines 321-383) at the state level: a slot
ends up present iff its channel select succeeded and BNO055 construction
succeeded within the retries; overall success iff at least one slot is
present.  The backoff, multiplexer reset and emergency bus recovery do not
change the modelled state. -/
def init_sensors (hw : HwOracle) : List Bool × Bool :=
  let res := (List.range 8).map fun idx =>
    (select_sensor (hw.selI1 idx) (hw.selI2 idx) (idx / 2)).ok && hw.constructOk idx
  (res, res.any id)

/-- Embedding of node restart_node (lines 721-724). -/
def restart_node (st : NodeState) : CmdOutcome :=
  ⟨st, "Restarting node...", true, true⟩

/-- Embedding of node check_sensor_command (lines 726-737): joins the status
lines with newlines; always succeeds when no exception escapes. -/
def check_sensor_command (hw : HwOracle) (st : NodeState) : CmdOutcome :=
  let r := check_sensor_status hw st.sensors
  ⟨{ st with sensors := r.2 }, String.intercalate "\n" r.1, true, false⟩

/-- Embedding of node reinitialize_sensors (lines 739-767): streaming is
paused, sensors reinitialised, and streaming resumed only when it was active
and the reinitialisation succeeded. -/
def reinitialize_sensors (hw : HwOracle) (st : NodeState) : CmdOutcome :=
  let wasReading := st.readingEnabled
  let r := init_sensors hw
  ⟨{ st with sensors := r.1, readingEnabled := wasReading && r.2 },
   "Sensors reinitialized. Success: " ++ (if r.2 then "True" else "False"), r.2, false⟩

/-- Embedding of node start_streaming (lines 769-789): a failure to spawn the
reader thread resets `reading_enabled` to false. -/
def start_streaming (hw : HwOracle) (st : NodeState) : CmdOutcome :=
  if st.readingEnabled then ⟨st, "Sensor reading already running.", true, false⟩
  else if hw.threadStartOk then
    ⟨{ st with readingEnabled := true }, "Sensor reading started.", true, false⟩
  else ⟨st, "ERROR starting sensor reading: " ++ hw.threadErrMsg, false, false⟩

/-- Embedding of node stop_streaming (lines 791-804): both branches leave
`reading_enabled` false and report success, with different messages. -/
def stop_streaming (st : NodeState) : CmdOutcome :=
  if st.readingEnabled then
    ⟨{ st with readingEnabled := false }, "Sensor reading stopped.", true, false⟩
  else ⟨{ st with readingEnabled := false }, "Sensor reading not running.", true, false⟩

/-- Embedding of node emergency_stop_command (lines 806-817). -/
def emergency_stop_command (st : NodeState) : CmdOutcome :=
  ⟨{ st with emergencyStop := true }, "Emergency stop activated. Stopping all threads.", true, false⟩

/-- Python list indexing with an int index: nonnegative indices address from
the front, negative ones from the back, out of range raises (`none`). -/
def pyIndex (l : List String) (i : Int) : Option String :=
  if 0 ≤ i then l.get? i.toNat
  else if (-i).toNat ≤ l.length then l.get? (l.length - (-i).toNat) else none

/-- Log level name table of node set_debug_mode (lines 829 and 837). -/
def LOG_MODES : List String := ["DEBUG", "INFO", "WARNING", "ERROR"]

/-- Query branch of node set_debug_mode (lines 835-837): report the current
level name; an out-of-range stored level would raise IndexError, caught at
line 838. -/
def debugQuery (st : NodeState) : CmdOutcome :=
  match pyIndex LOG_MODES st.currentLogLevel with
  | some m => ⟨st, "Current log level: " ++ m, true, false⟩
  | none => ⟨st, "Error setting debug mode: list index out of range", false, false⟩

/-- Embedding of node set_debug_mode (lines 819-839): a nonempty parameter is
parsed with `int()`; a value in 0..3 is stored and acknowledged, anything
else is rejected without change; a missing or empty parameter (both falsy in
Python) reports the current level. -/
def set_debug_mode (st : NodeState) (params : Option String) : CmdOutcome :=
  match params with
  | some p =>
      if p = "" then debugQuery st
      else
        match pyParseInt p.toList with
        | some lvl =>
            if 0 ≤ lvl ∧ lvl ≤ 3 then
              ⟨{ st with currentLogLevel := lvl },
               "Log level set to " ++ LOG_MODES.getD lvl.toNat "", true, false⟩
            else ⟨st, "Invalid log level: " ++ toString lvl ++ ". Must be 0-3.", false, false⟩
        | none => ⟨st, "Error setting debug mode: invalid literal for int()", false, false⟩
  | none => debugQuery st

/-- Embedding of node ping_command (lines 841-843). -/
def ping_command (st : NodeState) : CmdOutcome :=
  ⟨st, "PONG", true, false⟩

/-- Command code extraction of handle_command_client lines 862-866:
strip the request, split at the first colon, uppercase the head. -/
def cmdCodeOf (raw : String) : String :=
  String.mk ((splitOnceColon (pyStrip raw.toList)).1.map Char.toUpper)

/-- Parameter extraction of handle_command_client line 867: the text after
the first colon, if any, verbatim. -/
def cmdParamsOf (raw : String) : Option String :=
  ((splitOnceColon (pyStrip raw.toList)).2).map String.mk

/-- The command_handlers dispatch table of lines 662-671 and 886-892: run
the handler for a known code, else report an unknown command. -/
def dispatch (hw : HwOracle) (st : NodeState) (cmd : String) (params : Option String) :
    CmdOutcome :=
  if cmd = "N" then restart_node st
  else if cmd = "C" then check_sensor_command hw st
  else if cmd = "I" then reinitialize_sensors hw st
  else if cmd = "S" then start_streaming hw st
  else if cmd = "X" then stop_streaming st
  else if cmd = "Q" then emergency_stop_command st
  else if cmd = "D" then set_debug_mode st params
  else if cmd = "P" then ping_command st
  else ⟨st, "Unknown command: " ++ cmd, false, false⟩

/-- Embedding of one request iteration of node handle_command_client
(lines 862-899): while streaming, any code other than X, Q, P is rejected
with an error response and no handler runs; otherwise the request is
dispatched. -/
def handleCommand (hw : HwOracle) (st : NodeState) (raw : String) : CmdOutcome :=
  let cmd := cmdCodeOf raw
  if st.readingEnabled = true ∧ cmd ≠ "X" ∧ cmd ≠ "Q" ∧ cmd ≠ "P" then
    ⟨st, "ERROR: Cannot execute '" ++ cmd ++ "' while streaming. Stop streaming first (X command).",
     false, false⟩
  else dispatch hw st cmd (cmdParamsOf raw)

/-- Reply sent to the client (lines 894-899 and 904-905): status prefix
`OK:` or `ERROR:` before the response, and a fixed acknowledgement when a
restart was requested. -/
def replyOf (r : CmdOutcome) : String :=
  if r.shouldRestart then "OK:Restarting node..."
  else (if r.success then "OK:" else "ERROR:") ++ r.response

/-- Helper: the debug-level query never changes the state. -/
theorem debugQuery_state (st : NodeState) : (debugQuery st).state = st := by
  unfold debugQuery
  rcases pyIndex LOG_MODES st.currentLogLevel with _ | m <;> rfl

/-- Helper: when streaming is inactive every request goes to the dispatch
table. -/
theorem handleCommand_notStreaming (hw : HwOracle) (st : NodeState) (raw : String)
    (h : st.readingEnabled = false) :
    handleCommand hw st raw = dispatch hw st (cmdCodeOf raw) (cmdParamsOf raw) := by
  simp [handleCommand, h]

/-- C3: while streaming is active, every received command whose code is not
X, Q or P is rejected: the state (sensor array, reading_enabled, log level,
emergency-stop flag) is unchanged, no handler runs (success is false, no
restart), and the reply is prefixed `ERROR:`. -/
theorem node_streaming_rejects (hw : HwOracle) (st : NodeState) (raw : String)
    (hs : st.readingEnabled = true)
    (hx : cmdCodeOf raw ≠ "X") (hq : cmdCodeOf raw ≠ "Q") (hp : cmdCodeOf raw ≠ "P") :
    (handleCommand hw st raw).state = st
    ∧ (handleCommand hw st raw).success = false
    ∧ (handleCommand hw st raw).shouldRestart = false
    ∧ replyOf (handleCommand hw st raw) = "ERROR:" ++ (handleCommand hw st raw).response := by
  simp [handleCommand, replyOf, hs, hx, hq, hp]

/-- Concrete oracle for witnesses: all hardware interactions succeed. -/
def hwOracleEx : HwOracle :=
  ⟨fun _ => true, fun _ => true, fun _ => .ok 80, fun _ => true, fun _ => true,
   fun _ => true, true, "thread error"⟩

/-- Concrete streaming node state for the C3 witness. -/
def nodeStreamingEx : NodeState := ⟨true, List.replicate 8 true, 1, false⟩

/-- Witness for node_streaming_rejects: the command `S` sent while streaming
is rejected with an `ERROR:` reply and the state is untouched. -/
theorem node_streaming_rejects_witness :
    nodeStreamingEx.readingEnabled = true
    ∧ cmdCodeOf "S" ≠ "X" ∧ cmdCodeOf "S" ≠ "Q" ∧ cmdCodeOf "S" ≠ "P"
    ∧ ((handleCommand hwOracleEx nodeStreamingEx "S").state = nodeStreamingEx
       ∧ (handleCommand hwOracleEx nodeStreamingEx "S").success = false
       ∧ (handleCommand hwOracleEx nodeStreamingEx "S").shouldRestart = false
       ∧ replyOf (handleCommand hwOracleEx nodeStreamingEx "S")
           = "ERROR:" ++ (handleCommand hwOracleEx nodeStreamingEx "S").response) :=
  ⟨rfl, by decide, by decide, by decide,
   node_streaming_rejects hwOracleEx nodeStreamingEx "S" rfl (by decide) (by decide) (by decide)⟩

/-- C8: processing `D:2` (while not streaming) sets the log threshold to 2
and replies with success naming WARNING; a subsequent bare `D` succeeds and
reports exactly level 2 (WARNING); any D parameter whose integer value lies
outside 0..3 leaves the threshold unchanged. -/
theorem node_debug_level (hw : HwOracle) (st : NodeState)
    (h : st.readingEnabled = false) :
    (handleCommand hw st "D:2").state = { st with currentLogLevel := 2 }
    ∧ (handleCommand hw st "D:2").success = true
    ∧ replyOf (handleCommand hw st "D:2") = "OK:Log level set to WARNING"
    ∧ (handleCommand hw { st with currentLogLevel := 2 } "D").state
        = { st with currentLogLevel := 2 }
    ∧ (handleCommand hw { st with currentLogLevel := 2 } "D").success = true
    ∧ replyOf (handleCommand hw { st with currentLogLevel := 2 } "D")
        = "OK:Current log level: WARNING"
    ∧ (∀ p v, pyParseInt p.toList = some v → ¬ (0 ≤ v ∧ v ≤ 3) →
        (set_debug_mode st (some p)).state.currentLogLevel = st.currentLogLevel) := by
  have hc : cmdCodeOf "D:2" = "D" := by decide
  have hp2 : cmdParamsOf "D:2" = some "2" := by decide
  have hcD : cmdCodeOf "D" = "D" := by decide
  have hpD : cmdParamsOf "D" = none := by decide
  have hpi : pyParseInt ['2'] = some 2 := by decide
  have hm : (LOG_MODES[(2 : Nat)]?).getD "" = "WARNING" := by decide
  have hq2 : pyIndex LOG_MODES 2 = some "WARNING" := by decide
  have h2 : ({ st with currentLogLevel := 2 } : NodeState).readingEnabled = false := h
  have key1 : handleCommand hw st "D:2" =
      ⟨{ st with currentLogLevel := 2 }, "Log level set to WARNING", true, false⟩ := by
    rw [handleCommand_notStreaming hw st _ h, hc, hp2]
    simp [dispatch, set_debug_mode, hpi, hm]
  have key2 : handleCommand hw { st with currentLogLevel := 2 } "D" =
      ⟨{ st with currentLogLevel := 2 }, "Current log level: WARNING", true, false⟩ := by
    rw [handleCommand_notStreaming hw _ _ h2, hcD, hpD]
    simp [dispatch, set_debug_mode, debugQuery, hq2]
  refine ⟨?_, ?_, ?_, ?_, ?_, ?_, ?_⟩
  · rw [key1]
  · rw [key1]
  · rw [key1]; rfl
  · rw [key2]
  · rw [key2]
  · rw [key2]; rfl
  · intro p v hpv hrange
    by_cases hpe : p = ""
    · subst hpe
      simp [set_debug_mode, debugQuery_state]
    · have hpv2 : pyParseInt p.data = some v := hpv
      simp [set_debug_mode, hpe, hpv2, hrange]

/-- Concrete idle node state for the C8 witness. -/
def nodeIdleEx : NodeState := ⟨false, List.replicate 8 true, 1, false⟩

/-- Witness for node_debug_level: on a concrete idle state, `D:2` stores
level 2 with the WARNING acknowledgement, a bare `D` then reports WARNING,
and the out-of-range parameter `5` leaves the threshold where it was. -/
theorem node_debug_level_witness :
    nodeIdleEx.readingEnabled = false
    ∧ (handleCommand hwOracleEx nodeIdleEx "D:2").state
        = { nodeIdleEx with currentLogLevel := 2 }
    ∧ replyOf (handleCommand hwOracleEx nodeIdleEx "D:2") = "OK:Log level set to WARNING"
    ∧ replyOf (handleCommand hwOracleEx { nodeIdleEx with currentLogLevel := 2 } "D")
        = "OK:Current log level: WARNING"
    ∧ pyParseInt ("5" : String).toList = some 5
    ∧ ¬ ((0 : Int) ≤ 5 ∧ (5 : Int) ≤ 3)
    ∧ (set_debug_mode nodeIdleEx (some "5")).state.currentLogLevel
        = nodeIdleEx.currentLogLevel :=
  ⟨rfl,
   (node_debug_level hwOracleEx nodeIdleEx rfl).1,
   (node_debug_level hwOracleEx nodeIdleEx rfl).2.2.1,
   (node_debug_level hwOracleEx nodeIdleEx rfl).2.2.2.2.2.1,
   by decide, by decide,
   (node_debug_level hwOracleEx nodeIdleEx rfl).2.2.2.2.2.2 "5" 5 (by decide) (by decide)⟩

/-- C10: a stop-streaming request `X` always leaves reading_enabled false and
succeeds with an `OK:`-prefixed reply, and a second `X` produces exactly the
same final state as the first, so two consecutive X commands are equivalent
to one. -/
theorem stop_streaming_idem (hw : HwOracle) (st : NodeState) :
    (handleCommand hw st "X").state = { st with readingEnabled := false }
    ∧ (handleCommand hw st "X").success = true
    ∧ replyOf (handleCommand hw st "X") = "OK:" ++ (handleCommand hw st "X").response
    ∧ (handleCommand hw (handleCommand hw st "X").state "X").state
        = (handleCommand hw st "X").state := by
  have hc : cmdCodeOf "X" = "X" := by decide
  have hp : cmdParamsOf "X" = none := by decide
  have key : ∀ s : NodeState, handleCommand hw s "X" = stop_streaming s := by
    intro s
    unfold handleCommand
    rw [hc, hp]
    simp [dispatch]
  cases hr : st.readingEnabled <;>
    simp [key, stop_streaming, replyOf, hr]

/-! ## Emergency-stop flag: transition system (both devices)

State of one device process after its initialization (node main line 1069 and
receiver main line 1266 both clear the flag during initialization, which is
outside the claim).  The operations that touch the flag afterwards are:

* every flag-setting site — receiver `set_emergency_stop` (lines 53-58), the
  node Q handler (lines 813-815), and the KeyboardInterrupt paths on both
  devices — modelled as `setStop`;
* entry into the receiver's `safe_mode`, which snapshots the flag into
  `was_emergency` (lines 1206-1208), modelled as `enterSafeMode`;
* the `finally` block of the receiver's `safe_mode`, which writes the
  snapshot back into the flag (lines 1245-1248), modelled as `exitSafeMode`.

The node's own safe_mode (node main lines 1040-1063) never touches the flag.
Concurrent threads interleave these operations, so reachability is closed
under every enabled step. -/

/-- Emergency-flag state of a device process: the flag itself and, while the
receiver's safe_mode is active, the `was_emergency` snapshot taken at entry. -/
structure EmState where
  flag : Bool
  safeSnapshot : Option Bool
  deriving DecidableEq

/-- Operations on the emergency flag after process initialization. -/
inductive EmOp
  | setStop
  | enterSafeMode
  | exitSafeMode
  deriving DecidableEq

/-- Small-step semantics of the flag operations: `setStop` sets the flag,
`enterSafeMode` snapshots it, `exitSafeMode` restores the snapshot taken at
entry. -/
inductive EmStep : EmOp → EmState → EmState → Prop
  | setStop : ∀ f sn, EmStep EmOp.setStop ⟨f, sn⟩ ⟨true, sn⟩
  | enterSafe : ∀ f, EmStep EmOp.enterSafeMode ⟨f, none⟩ ⟨f, some f⟩
  | exitSafe : ∀ f b, EmStep EmOp.exitSafeMode ⟨f, some b⟩ ⟨b, none⟩

/-- States reachable from the post-initialization state (flag cleared, no
safe-mode snapshot) by any interleaving of the flag operations. -/
inductive EmReachable : EmState → Prop
  | init : EmReachable ⟨false, none⟩
  | step : ∀ op s t, EmReachable s → EmStep op s t → EmReachable t

/-- C5 counterexample: the state with the flag set during an active safe mode
whose entry snapshot was false is reachable (enter safe mode with the flag
clear, then a concurrent emergency stop sets it), and from it the safe-mode
exit restore performs a step that takes the flag from true back to false —
so the flag is not monotonic for the process lifetime. -/
theorem emergency_flag_not_monotone :
    EmReachable ⟨true, some false⟩
    ∧ EmStep EmOp.exitSafeMode ⟨true, some false⟩ ⟨false, none⟩
    ∧ (⟨true, some false⟩ : EmState).flag = true
    ∧ (⟨false, none⟩ : EmState).flag = false :=
  ⟨EmReachable.step EmOp.setStop ⟨false, some false⟩ ⟨true, some false⟩
      (EmReachable.step EmOp.enterSafeMode ⟨false, none⟩ ⟨false, some false⟩
        EmReachable.init (EmStep.enterSafe false))
      (EmStep.setStop false (some false)),
   EmStep.exitSafe true false, rfl, rfl⟩

/-- C5 amended: the emergency flag is monotonic under every operation except
the receiver safe-mode exit, which restores the flag to its value at
safe-mode entry; in particular, when the snapshot was taken with the flag
already set, even the safe-mode exit keeps the flag set. -/
theorem emergency_flag_monotone_amended (op : EmOp) (s t : EmState)
    (hstep : EmStep op s t) (hflag : s.flag = true) :
    (op ≠ EmOp.exitSafeMode → t.flag = true)
    ∧ (s.safeSnapshot = some true → t.flag = true) := by
  cases hstep with
  | setStop f sn => exact ⟨fun _ => rfl, fun _ => rfl⟩
  | enterSafe f => exact ⟨fun _ => hflag, fun _ => hflag⟩
  | exitSafe f b =>
      refine ⟨fun hop => absurd rfl hop, fun hsn => ?_⟩
      simpa using congrArg (Option.getD · false) hsn

/-- Witness for emergency_flag_monotone_amended: a concrete setStop step from
a set flag keeps it set, and a concrete safe-mode exit whose snapshot was
taken with the flag set also keeps it set. -/
theorem emergency_flag_monotone_amended_witness :
    (EmState.mk true (some false)).flag = true ∧ (EmState.mk true none).flag = true :=
  ⟨(emergency_flag_monotone_amended EmOp.setStop ⟨true, some false⟩ ⟨true, some false⟩
      (EmStep.setStop true (some false)) rfl).1 (by decide),
   (emergency_flag_monotone_amended EmOp.exitSafeMode ⟨true, some true⟩ ⟨true, none⟩
      (EmStep.exitSafe true true) rfl).2 rfl⟩

/-! ## Receiver: AP-start failure counting and safe mode (src/esp32/receiver/main.py, main lines 1279-1299, safe_mode lines 1200-1250)

The AP-start stage of `main` is driven by an oracle list of start_ap outcomes
(one per loop iteration); `failures` counts consecutive failures against
`max_failures = 3`.  The safe-mode busy loop (lines 1236-1244) is a function
from the sequence of events observed per iteration to the sequence of actions
performed; the action alphabet includes a `sendReply` constructor so that the
absence of any command answering can be stated, and a command arriving on any
channel is an event the loop body simply does not inspect. -/

/-- Outcome of the AP-start stage of receiver `main`. -/
inductive StageOutcome
  | proceed
  | safeMode
  deriving DecidableEq

/-- Embedding of receiver main lines 1291-1299: each iteration attempts
start_ap; success proceeds with the failure counter reset, a failure
increments it, and reaching 3 consecutive failures enters safe mode.
Returns `none` when the oracle list runs out before the stage settles. -/
def apStage (failures : Nat) : List Bool → Option StageOutcome
  | [] => none
  | ok :: rest =>
      if ok then some StageOutcome.proceed
      else if failures + 1 ≥ 3 then some StageOutcome.safeMode
      else apStage (failures + 1) rest

/-- Event observed by one iteration of the safe-mode busy loop: the 1s sleep
completing, a KeyboardInterrupt, an exception inside the loop, or a command
arriving from the environment (which the loop body never reads). -/
inductive SafeInput
  | sleepDone
  | keyboardInterrupt
  | internalError
  | commandArrives (cmd : String)
  deriving DecidableEq

/-- Action performed by the safe-mode busy loop.  `sendReply` is in the
alphabet so that never answering can be stated; no branch of the loop emits
it. -/
inductive SafeAction
  | feedWatchdog
  | sleepMs (n : Nat)
  | logLine (s : String)
  | machineReset
  | enterREPL
  | sendReply (s : String)
  deriving DecidableEq

/-- Embedding of the safe-mode busy loop (receiver lines 1236-1244):
every ordinary iteration feeds the watchdog and sleeps 1000 ms — including
iterations during which a command arrives, since the body reads no input;
a KeyboardInterrupt logs and drops to the REPL; any other exception logs and
hard-resets the machine. -/
def safeModeLoop : List SafeInput → List SafeAction
  | [] => []
  | i :: rest =>
      match i with
      | .sleepDone => .feedWatchdog :: .sleepMs 1000 :: safeModeLoop rest
      | .commandArrives _ => .feedWatchdog :: .sleepMs 1000 :: safeModeLoop rest
      | .keyboardInterrupt =>
          [.logLine "Keyboard interrupt detected, entering REPL", .enterREPL]
      | .internalError => [.logLine "Safe mode error", .machineReset]

/-- Predicate selecting command replies among safe-mode actions. -/
def isReply : SafeAction → Bool
  | .sendReply _ => true
  | _ => false

/-- C6 counterexample: when a restart command `R` arrives while the receiver
is in safe mode, the loop iteration just feeds the watchdog and sleeps — it
sends no reply and performs no reset, so a restart command is NOT answered
from safe mode. -/
theorem safe_mode_ignores_restart_command :
    safeModeLoop [SafeInput.commandArrives "R"]
      = [SafeAction.feedWatchdog, SafeAction.sleepMs 1000]
    ∧ (safeModeLoop [SafeInput.commandArrives "R"]).filter isReply = []
    ∧ SafeAction.machineReset ∉ safeModeLoop [SafeInput.commandArrives "R"] := by
  decide

/-- C6 amended: three consecutive AP-start failures send the receiver into
safe mode; safe mode stays alive, feeding the watchdog on every ordinary
iteration, but it answers no command at all — it never sends a reply, and it
resets the machine only after an internal error (exit otherwise requires a
KeyboardInterrupt into the REPL). -/
theorem ap_failures_enter_safe_mode (ins : List SafeInput) (n : Nat) :
    apStage 0 [false, false, false] = some StageOutcome.safeMode
    ∧ (safeModeLoop ins).filter isReply = []
    ∧ (SafeAction.machineReset ∈ safeModeLoop ins → SafeInput.internalError ∈ ins)
    ∧ (safeModeLoop (List.replicate n SafeInput.sleepDone)).count SafeAction.feedWatchdog = n := by
  refine ⟨by decide, ?_, ?_, ?_⟩
  · induction ins with
    | nil => rfl
    | cons i rest ih => cases i <;> simp [safeModeLoop, isReply, ih]
  · induction ins with
    | nil => simp [safeModeLoop]
    | cons i rest ih =>
        cases i <;> simp [safeModeLoop] <;> intro hmem <;> exact ih hmem
  · induction n with
    | zero => rfl
    | succ k ih => simp [List.replicate_succ, safeModeLoop, List.count_cons, ih]

/-- Witness for ap_failures_enter_safe_mode: the implication is exercised on
the input consisting of one internal error, and the watchdog count on two
ordinary iterations. -/
theorem ap_failures_enter_safe_mode_witness :
    apStage 0 [false, false, false] = some StageOutcome.safeMode
    ∧ (safeModeLoop [SafeInput.internalError]).filter isReply = []
    ∧ SafeInput.internalError ∈ [SafeInput.internalError]
    ∧ (safeModeLoop (List.replicate 2 SafeInput.sleepDone)).count SafeAction.feedWatchdog = 2 :=
  ⟨(ap_failures_enter_safe_mode [] 0).1,
   (ap_failures_enter_safe_mode [SafeInput.internalError] 0).2.1,
   (ap_failures_enter_safe_mode [SafeInput.internalError] 0).2.2.1 (by decide),
   (ap_failures_enter_safe_mode [] 2).2.2.2⟩

end MoCap
